import Mathlib

/-!
Shallow embedding of the core game logic of the lavobot-game repository.

The repository contains three scene components, each with the same control
flow per rendered frame: candidate position from intent vector, obstacle
rejection (pool-deck and garage scenes), clamping to rectangular bounds,
surface-height snap, grid-cell dirty-to-cleaned transition, and a stats
report effect.  Continuous coordinates are modelled with `ℚ` (JavaScript
numbers; all constants of the code are decimal fractions, exactly
representable), grid cells with integer pairs, and the per-frame mutation
with explicit state-passing step functions.

Sources:
  src/src/components/ParkingLotScene.jsx (ParkingLotScene, ParkingGarageScene)
  src/src/components/DrivewayScene.jsx   (DrivewayScene)
-/

/-- JavaScript `Math.round`: round half toward positive infinity. -/
def jround (q : ℚ) : ℤ := ⌊q + 1/2⌋

/-- JavaScript `Math.max(lo, Math.min(hi, v))` as used by every scene's clamp. -/
def clampQ (lo hi v : ℚ) : ℚ := max lo (min hi v)

/-- Rectangular integer game bounds (`GAME_BOUNDS` of each scene). -/
structure Bounds where
  minX : ℤ
  maxX : ℤ
  minZ : ℤ
  maxZ : ℤ

/-- Rational rectangle (`POOL_BOUNDS` of the driveway scene). -/
structure QBounds where
  minX : ℚ
  maxX : ℚ
  minZ : ℚ
  maxZ : ℚ

/-- JavaScript `Number(x.toFixed(1))`: round to one decimal place
(ties go to the larger value, per ECMA `toFixed`). -/
def toFixed1 (q : ℚ) : ℚ := (⌊q * 10 + 1/2⌋ : ℚ) / 10

/-- The stats object pushed to `onStatsUpdate` by every scene. -/
structure Stats where
  progress : ℚ
  cleanedTiles : ℕ
  totalTiles : ℕ
  remainingTiles : ℤ
deriving DecidableEq, Repr

/-- The stats-update effect body, identical in all three scenes:
emit a report only when `totalCells > 0`, with progress as a percentage
rounded to one decimal place. -/
def statsUpdate (cleanedSize totalCells : ℕ) : Option Stats :=
  if 0 < totalCells then
    some ⟨toFixed1 ((cleanedSize : ℚ) / (totalCells : ℚ) * 100),
          cleanedSize, totalCells, (totalCells : ℤ) - (cleanedSize : ℤ)⟩
  else none

/-- The dirty-to-cleaned cell transition shared by every scene's frame
update: if the current cell is in the dirty set, delete it there and add it
to the cleaned set; otherwise leave both sets alone. -/
def cleanTransition {α : Type} [DecidableEq α] (cell : α)
    (dirty cleaned : Finset α) : Finset α × Finset α :=
  if cell ∈ dirty then (dirty.erase cell, insert cell cleaned)
  else (dirty, cleaned)

/-- Per-frame speed scalar (`MOVEMENT_SPEED`, identical in all scenes). -/
def MOVEMENT_SPEED : ℚ := 0.15

namespace OpenLot

/-- `GAME_BOUNDS` of ParkingLotScene. -/
def GAME_BOUNDS : Bounds := ⟨-17, 17, -26, -4⟩

/-- Surface render type of a cleanable cell in the open lot. -/
inductive SType where
  | parking
  | driveway
  | road
deriving DecidableEq, Repr

def SURFACE_HEIGHTS.ground : ℚ := -0.01
def SURFACE_HEIGHTS.road : ℚ := 0.02
def SURFACE_HEIGHTS.parking : ℚ := 0
def SURFACE_HEIGHTS.driveway : ℚ := 0.02

/-- Result record of `getCleanableArea`. -/
structure CleanArea where
  cleanable : Bool
  type : Option SType
  height : ℚ
deriving DecidableEq, Repr

/-- ParkingLotScene's `getCleanableArea`: three horizontal bands by `z`
(parking, driveway, road), each limited laterally by `|x| <= 17`. -/
def getCleanableArea (x z : ℤ) : CleanArea :=
  if |x| ≤ 17 ∧ (z ≥ -26 ∧ z ≤ -10) then
    ⟨true, some SType.parking, SURFACE_HEIGHTS.parking⟩
  else if z ≥ -10 ∧ z ≤ -2 ∧ |x| ≤ 17 then
    ⟨true, some SType.driveway, SURFACE_HEIGHTS.driveway⟩
  else if z ≥ -2 ∧ z ≤ 0 ∧ |x| ≤ 17 then
    ⟨true, some SType.road, SURFACE_HEIGHTS.road⟩
  else
    ⟨false, none, SURFACE_HEIGHTS.ground⟩

/-- Grid-cell identifier of the open lot: the `"x,z,type"` key string. -/
abbrev OpenCell : Type := ℤ × ℤ × Option SType

/-- React state of ParkingLotScene that the frame update touches. -/
structure OLState where
  x : ℚ
  y : ℚ
  z : ℚ
  dirty : Finset OpenCell
  cleaned : Finset OpenCell

/-- Clamped candidate position of a frame (x and z components). -/
def openLotClamp (m : ℚ × ℚ) (s : OLState) : ℚ × ℚ :=
  (clampQ (GAME_BOUNDS.minX : ℚ) (GAME_BOUNDS.maxX : ℚ) (s.x + m.1 * MOVEMENT_SPEED),
   clampQ (GAME_BOUNDS.minZ : ℚ) (GAME_BOUNDS.maxZ : ℚ) (s.z + m.2 * MOVEMENT_SPEED))

/-- `getCleanableArea(Math.round(newPosition.x), Math.round(newPosition.z))`. -/
def openLotArea (m : ℚ × ℚ) (s : OLState) : CleanArea :=
  getCleanableArea (jround (openLotClamp m s).1) (jround (openLotClamp m s).2)

/-- The `currentCell` key of a frame. -/
def openLotCell (m : ℚ × ℚ) (s : OLState) : OpenCell :=
  (jround (openLotClamp m s).1, jround (openLotClamp m s).2, (openLotArea m s).type)

/-- One `useFrame` body of ParkingLotScene: move with per-axis clamping (no
obstacle check), snap `y` to the surface height when the rounded cell is
cleanable, then transition the current cell when it is cleanable and dirty. -/
def openLotStep (m : ℚ × ℚ) (s : OLState) : OLState :=
  { x := (openLotClamp m s).1
    y := if (openLotArea m s).cleanable then (openLotArea m s).height + 0.069 else s.y
    z := (openLotClamp m s).2
    dirty := (if (openLotArea m s).cleanable then
        cleanTransition (openLotCell m s) s.dirty s.cleaned
      else (s.dirty, s.cleaned)).1
    cleaned := (if (openLotArea m s).cleanable then
        cleanTransition (openLotCell m s) s.dirty s.cleaned
      else (s.dirty, s.cleaned)).2 }

/-- Initial dirty set: every integer coordinate pair of the bounding
rectangle that the classifier reports cleanable, keyed with its type. -/
def openLotInitDirty : Finset OpenCell :=
  Finset.image (fun p : ℤ × ℤ => (p.1, p.2, (getCleanableArea p.1 p.2).type))
    (Finset.filter (fun p : ℤ × ℤ => (getCleanableArea p.1 p.2).cleanable)
      (Finset.Icc GAME_BOUNDS.minX GAME_BOUNDS.maxX ×ˢ
       Finset.Icc GAME_BOUNDS.minZ GAME_BOUNDS.maxZ))

/-- `totalCells` set by the initialization effect (`cellCount`). -/
def openLotTotalCells : ℕ :=
  (Finset.filter (fun p : ℤ × ℤ => (getCleanableArea p.1 p.2).cleanable)
    (Finset.Icc GAME_BOUNDS.minX GAME_BOUNDS.maxX ×ˢ
     Finset.Icc GAME_BOUNDS.minZ GAME_BOUNDS.maxZ)).card

/-- State after the initialization effects: avatar at `[0, 0.069, 0]`,
all cleanable cells dirty, nothing cleaned. -/
def openLotInit : OLState :=
  ⟨0, 0.069, 0, openLotInitDirty, ∅⟩

/-- Run a list of frames (one intent vector per frame) from a state. -/
def openLotRunFrom (s : OLState) (l : List (ℚ × ℚ)) : OLState :=
  l.foldl (fun t m => openLotStep m t) s

/-- Run a list of frames from the initialized state. -/
def openLotRun (l : List (ℚ × ℚ)) : OLState :=
  openLotRunFrom openLotInit l

end OpenLot

namespace Driveway

/-- `GAME_BOUNDS` of DrivewayScene. -/
def GAME_BOUNDS : Bounds := ⟨-12, 12, -12, 12⟩

/-- `POOL_BOUNDS` of DrivewayScene. -/
def POOL_BOUNDS : QBounds := ⟨-6, 6, -4, 4⟩

/-- `PLANTER_POSITIONS`. -/
def PLANTER_POSITIONS : List (ℚ × ℚ) := [(-10, -10), (10, -10), (-10, 10), (10, 10)]

/-- `PLANTER_SIZE` (half-width of the 3x3 planter box). -/
def PLANTER_SIZE : ℚ := 1.5

def SURFACE_HEIGHTS.ground : ℚ := -0.01
def SURFACE_HEIGHTS.poolDeck : ℚ := 0.02
def SURFACE_HEIGHTS.poolWater : ℚ := 0.1
def SURFACE_HEIGHTS.poolEdge : ℚ := 0.15

/-- The rectangular pool test of `isInPool` (its first branch). -/
def inPoolRect (x z : ℚ) : Prop :=
  x ≥ POOL_BOUNDS.minX ∧ x ≤ POOL_BOUNDS.maxX ∧
  z ≥ POOL_BOUNDS.minZ ∧ z ≤ POOL_BOUNDS.maxZ

instance (x z : ℚ) : Decidable (inPoolRect x z) := by
  unfold inPoolRect; infer_instance

/-- DrivewayScene's `isInPool`: the pool rectangle, or any of the four
planter boxes. -/
def isInPool (x z : ℚ) : Prop :=
  inPoolRect x z ∨
  ∃ p ∈ PLANTER_POSITIONS, |x - p.1| < PLANTER_SIZE ∧ |z - p.2| < PLANTER_SIZE

instance (x z : ℚ) : Decidable (isInPool x z) := by
  unfold isInPool; infer_instance

/-- React state of DrivewayScene that the frame update touches. -/
structure DWState where
  x : ℚ
  y : ℚ
  z : ℚ
  dirty : Finset (ℤ × ℤ)
  cleaned : Finset (ℤ × ℤ)

/-- Motion and collision of one DrivewayScene frame: the position update is
rejected entirely when the candidate is in the pool or a planter; otherwise
x and z are clamped independently and y snaps to the deck height. -/
def drivewayMove (m : ℚ × ℚ) (s : DWState) : ℚ × ℚ × ℚ :=
  if isInPool (s.x + m.1 * MOVEMENT_SPEED) (s.z + m.2 * MOVEMENT_SPEED) then
    (s.x, s.y, s.z)
  else
    (clampQ (GAME_BOUNDS.minX : ℚ) (GAME_BOUNDS.maxX : ℚ) (s.x + m.1 * MOVEMENT_SPEED),
     SURFACE_HEIGHTS.poolDeck + 0.069,
     clampQ (GAME_BOUNDS.minZ : ℚ) (GAME_BOUNDS.maxZ : ℚ) (s.z + m.2 * MOVEMENT_SPEED))

/-- The `currentCell` key of a DrivewayScene frame: the committed position
rounded per axis. -/
def drivewayCell (m : ℚ × ℚ) (s : DWState) : ℤ × ℤ :=
  (jround (drivewayMove m s).1, jround (drivewayMove m s).2.2)

/-- One `useFrame` body of DrivewayScene. -/
def drivewayStep (m : ℚ × ℚ) (s : DWState) : DWState :=
  { x := (drivewayMove m s).1
    y := (drivewayMove m s).2.1
    z := (drivewayMove m s).2.2
    dirty := (cleanTransition (drivewayCell m s) s.dirty s.cleaned).1
    cleaned := (cleanTransition (drivewayCell m s) s.dirty s.cleaned).2 }

/-- Initial dirty set: every integer coordinate pair of the bounding
rectangle that is not in the pool or a planter. -/
def drivewayInitDirty : Finset (ℤ × ℤ) :=
  Finset.filter (fun p : ℤ × ℤ => ¬ isInPool (p.1 : ℚ) (p.2 : ℚ))
    (Finset.Icc GAME_BOUNDS.minX GAME_BOUNDS.maxX ×ˢ
     Finset.Icc GAME_BOUNDS.minZ GAME_BOUNDS.maxZ)

/-- `totalCells` set by the initialization effect (`cellCount`). -/
def drivewayTotalCells : ℕ := drivewayInitDirty.card

/-- State after the initialization effects: avatar at
`[-8, SURFACE_HEIGHTS.poolDeck + 0.069, -8]`. -/
def drivewayInit : DWState :=
  ⟨-8, SURFACE_HEIGHTS.poolDeck + 0.069, -8, drivewayInitDirty, ∅⟩

/-- Run a list of frames from a state. -/
def drivewayRunFrom (s : DWState) (l : List (ℚ × ℚ)) : DWState :=
  l.foldl (fun t m => drivewayStep m t) s

/-- Run a list of frames from the initialized state. -/
def drivewayRun (l : List (ℚ × ℚ)) : DWState :=
  drivewayRunFrom drivewayInit l

/-- The stats effect of one DrivewayScene frame: it re-runs exactly when the
`cleanedCells` state changed, and its body is the shared guarded report. -/
def drivewayFrameReport (m : ℚ × ℚ) (s : DWState) : Option Stats :=
  if (drivewayStep m s).cleaned ≠ s.cleaned then
    statsUpdate (drivewayStep m s).cleaned.card drivewayTotalCells
  else none

end Driveway

namespace Garage

/-- `GAME_BOUNDS` of ParkingGarageScene. -/
def GAME_BOUNDS : Bounds := ⟨-15, 15, -10, 10⟩

/-- `CAR_BOUNDS`: parked-car position and footprint. -/
structure CarBounds where
  x : ℚ
  z : ℚ
  width : ℚ
  length : ℚ

def CAR_BOUNDS : CarBounds := ⟨-8, -6, 1.5, 3⟩

/-- ParkingGarageScene's `isInCarArea`. -/
def isInCarArea (x z : ℚ) : Prop :=
  |x - CAR_BOUNDS.x| < CAR_BOUNDS.width / 2 ∧
  |z - CAR_BOUNDS.z| < CAR_BOUNDS.length / 2

instance (x z : ℚ) : Decidable (isInCarArea x z) := by
  unfold isInCarArea; infer_instance

/-- React state of ParkingGarageScene that the frame update touches. -/
structure GState where
  x : ℚ
  y : ℚ
  z : ℚ
  dirty : Finset (ℤ × ℤ)
  cleaned : Finset (ℤ × ℤ)

/-- Motion and collision of one ParkingGarageScene frame: the update is
rejected entirely when the candidate is in the car footprint. -/
def garageMove (m : ℚ × ℚ) (s : GState) : ℚ × ℚ × ℚ :=
  if isInCarArea (s.x + m.1 * MOVEMENT_SPEED) (s.z + m.2 * MOVEMENT_SPEED) then
    (s.x, s.y, s.z)
  else
    (clampQ (GAME_BOUNDS.minX : ℚ) (GAME_BOUNDS.maxX : ℚ) (s.x + m.1 * MOVEMENT_SPEED),
     0.069,
     clampQ (GAME_BOUNDS.minZ : ℚ) (GAME_BOUNDS.maxZ : ℚ) (s.z + m.2 * MOVEMENT_SPEED))

/-- The `currentCell` key of a garage frame. -/
def garageCell (m : ℚ × ℚ) (s : GState) : ℤ × ℤ :=
  (jround (garageMove m s).1, jround (garageMove m s).2.2)

/-- One `useFrame` body of ParkingGarageScene. -/
def garageStep (m : ℚ × ℚ) (s : GState) : GState :=
  { x := (garageMove m s).1
    y := (garageMove m s).2.1
    z := (garageMove m s).2.2
    dirty := (cleanTransition (garageCell m s) s.dirty s.cleaned).1
    cleaned := (cleanTransition (garageCell m s) s.dirty s.cleaned).2 }

/-- Initial dirty set: every integer coordinate pair of the bounding
rectangle outside the car footprint. -/
def garageInitDirty : Finset (ℤ × ℤ) :=
  Finset.filter (fun p : ℤ × ℤ => ¬ isInCarArea (p.1 : ℚ) (p.2 : ℚ))
    (Finset.Icc GAME_BOUNDS.minX GAME_BOUNDS.maxX ×ˢ
     Finset.Icc GAME_BOUNDS.minZ GAME_BOUNDS.maxZ)

/-- `totalCells` set by the initialization effect (`cellCount`). -/
def garageTotalCells : ℕ := garageInitDirty.card

/-- The number of integer cells of the bounding rectangle inside the car
footprint. -/
def garageCarCells : ℕ :=
  (Finset.filter (fun p : ℤ × ℤ => isInCarArea (p.1 : ℚ) (p.2 : ℚ))
    (Finset.Icc GAME_BOUNDS.minX GAME_BOUNDS.maxX ×ˢ
     Finset.Icc GAME_BOUNDS.minZ GAME_BOUNDS.maxZ)).card

/-- State after the initialization effects: avatar at `[-1, 0.069, 0]`. -/
def garageInit : GState :=
  ⟨-1, 0.069, 0, garageInitDirty, ∅⟩

/-- Run a list of frames from a state. -/
def garageRunFrom (s : GState) (l : List (ℚ × ℚ)) : GState :=
  l.foldl (fun t m => garageStep m t) s

/-- Run a list of frames from the initialized state. -/
def garageRun (l : List (ℚ × ℚ)) : GState :=
  garageRunFrom garageInit l

end Garage

section TransitionLemmas

variable {α : Type} [DecidableEq α] (c : α) (d cl : Finset α)

lemma ct_dirty_subset : (cleanTransition c d cl).1 ⊆ d := by
  unfold cleanTransition
  split
  · exact fun a ha => Finset.mem_of_mem_erase ha
  · exact fun a ha => ha

lemma ct_cleaned_subset : cl ⊆ (cleanTransition c d cl).2 := by
  unfold cleanTransition
  split
  · exact Finset.subset_insert _ _
  · exact fun a ha => ha

lemma ct_union : (cleanTransition c d cl).1 ∪ (cleanTransition c d cl).2 = d ∪ cl := by
  unfold cleanTransition
  split
  · next h =>
    rw [Finset.union_insert, ← Finset.insert_union, Finset.insert_erase h]
  · rfl

lemma ct_disjoint (h : Disjoint d cl) :
    Disjoint (cleanTransition c d cl).1 (cleanTransition c d cl).2 := by
  unfold cleanTransition
  split
  · rw [Finset.disjoint_insert_right]
    exact ⟨Finset.not_mem_erase _ _,
      h.mono_left (fun a ha => Finset.mem_of_mem_erase ha)⟩
  · exact h

lemma ct_removed {a : α} (ha : a ∈ d) (ha' : a ∉ (cleanTransition c d cl).1) :
    a ∈ (cleanTransition c d cl).2 := by
  unfold cleanTransition at ha' ⊢
  by_cases h : c ∈ d
  · rw [if_pos h] at ha' ⊢
    by_cases hac : a = c
    · exact hac ▸ Finset.mem_insert_self c cl
    · exact absurd (Finset.mem_erase.mpr ⟨hac, ha⟩) ha'
  · rw [if_neg h] at ha'
    exact absurd ha ha'

lemma ct_frozen (h : Disjoint d cl) (hc : c ∈ cl) : cleanTransition c d cl = (d, cl) := by
  unfold cleanTransition
  rw [if_neg]
  exact fun hcd => (Finset.disjoint_left.mp h hcd) hc

lemma ct_clean (hc : c ∈ d) :
    (cleanTransition c d cl).1 = d.erase c ∧ (cleanTransition c d cl).2 = insert c cl := by
  unfold cleanTransition
  rw [if_pos hc]
  exact ⟨rfl, rfl⟩

lemma ct_card_succ (hc : c ∈ d) (hc' : c ∉ cl) :
    (cleanTransition c d cl).2.card = cl.card + 1 := by
  rw [(ct_clean c d cl hc).2, Finset.card_insert_of_not_mem hc']

lemma ct_card_le : cl.card ≤ (cleanTransition c d cl).2.card :=
  Finset.card_le_card (ct_cleaned_subset c d cl)

end TransitionLemmas

section ClampRoundLemmas

lemma clampQ_mem {lo hi : ℚ} (h : lo ≤ hi) (v : ℚ) :
    lo ≤ clampQ lo hi v ∧ clampQ lo hi v ≤ hi :=
  ⟨le_max_left _ _, max_le h (min_le_left _ _)⟩

lemma clampQ_between {a b lo hi v : ℚ} (ha : a < lo) (hb : hi < b)
    (h1 : lo ≤ clampQ a b v) (h2 : clampQ a b v ≤ hi) : lo ≤ v ∧ v ≤ hi := by
  unfold clampQ at h1 h2
  rcases le_max_iff.mp h1 with h1' | h1'
  · linarith
  · have hv1 : lo ≤ v := (le_min_iff.mp h1').2
    have h2' : min b v ≤ hi := le_trans (le_max_right a (min b v)) h2
    rcases min_le_iff.mp h2' with h2'' | h2''
    · linarith
    · exact ⟨hv1, h2''⟩

lemma clampQ_eq_self {lo hi v : ℚ} (h1 : lo ≤ v) (h2 : v ≤ hi) : clampQ lo hi v = v := by
  unfold clampQ
  rw [min_eq_right h2, max_eq_right h1]

lemma le_jround {n : ℤ} {q : ℚ} (h : (n : ℚ) ≤ q) : n ≤ jround q := by
  unfold jround
  exact Int.le_floor.mpr (by linarith)

lemma jround_le {q : ℚ} {n : ℤ} (h : q ≤ (n : ℚ)) : jround q ≤ n := by
  unfold jround
  have : ⌊q + 1/2⌋ < n + 1 := Int.floor_lt.mpr (by push_cast; linarith)
  omega

lemma jround_clampQ_mem {lo hi : ℤ} (h : (lo : ℚ) ≤ (hi : ℚ)) (v : ℚ) :
    lo ≤ jround (clampQ (lo : ℚ) (hi : ℚ) v) ∧ jround (clampQ (lo : ℚ) (hi : ℚ) v) ≤ hi :=
  ⟨le_jround (clampQ_mem h v).1, jround_le (clampQ_mem h v).2⟩

end ClampRoundLemmas

/-- Frame-loop induction: a property preserved by every step holds along any
run. -/
lemma foldl_inv {σ : Type} (f : (ℚ × ℚ) → σ → σ) (P : σ → Prop)
    (hstep : ∀ m t, P t → P (f m t)) :
    ∀ (l : List (ℚ × ℚ)) (s : σ), P s → P (l.foldl (fun t m => f m t) s) := by
  intro l
  induction l with
  | nil => exact fun s hs => hs
  | cons m t ih => exact fun s hs => ih _ (hstep m s hs)

open OpenLot Driveway Garage

section DrivewayLemmas

lemma drivewayStep_dirty (m : ℚ × ℚ) (s : DWState) :
    (drivewayStep m s).dirty = (cleanTransition (drivewayCell m s) s.dirty s.cleaned).1 := rfl

lemma drivewayStep_cleaned (m : ℚ × ℚ) (s : DWState) :
    (drivewayStep m s).cleaned = (cleanTransition (drivewayCell m s) s.dirty s.cleaned).2 := rfl

lemma drivewayStep_dirty_subset (m : ℚ × ℚ) (s : DWState) :
    (drivewayStep m s).dirty ⊆ s.dirty :=
  ct_dirty_subset _ _ _

lemma drivewayStep_cleaned_subset (m : ℚ × ℚ) (s : DWState) :
    s.cleaned ⊆ (drivewayStep m s).cleaned :=
  ct_cleaned_subset _ _ _

lemma drivewayStep_partition (m : ℚ × ℚ) (s : DWState)
    (h : Disjoint s.dirty s.cleaned ∧ s.dirty ∪ s.cleaned = drivewayInitDirty) :
    Disjoint (drivewayStep m s).dirty (drivewayStep m s).cleaned ∧
    (drivewayStep m s).dirty ∪ (drivewayStep m s).cleaned = drivewayInitDirty := by
  rw [drivewayStep_dirty, drivewayStep_cleaned]
  exact ⟨ct_disjoint _ _ _ h.1, by rw [ct_union, h.2]⟩

lemma drivewayRun_partition (l : List (ℚ × ℚ)) :
    Disjoint (drivewayRun l).dirty (drivewayRun l).cleaned ∧
    (drivewayRun l).dirty ∪ (drivewayRun l).cleaned = drivewayInitDirty := by
  refine foldl_inv drivewayStep
    (fun t => Disjoint t.dirty t.cleaned ∧ t.dirty ∪ t.cleaned = drivewayInitDirty)
    drivewayStep_partition l drivewayInit ⟨?_, ?_⟩
  · exact Finset.disjoint_empty_right _
  · exact Finset.union_empty _

lemma drivewayRunFrom_dirty_subset (s : DWState) (l : List (ℚ × ℚ)) :
    (drivewayRunFrom s l).dirty ⊆ s.dirty :=
  foldl_inv drivewayStep (fun t => t.dirty ⊆ s.dirty)
    (fun m t ht => (drivewayStep_dirty_subset m t).trans ht) l s (fun _ ha => ha)

lemma drivewayRunFrom_cleaned_subset (s : DWState) (l : List (ℚ × ℚ)) :
    s.cleaned ⊆ (drivewayRunFrom s l).cleaned :=
  foldl_inv drivewayStep (fun t => s.cleaned ⊆ t.cleaned)
    (fun m t ht => ht.trans (drivewayStep_cleaned_subset m t)) l s (fun _ ha => ha)

lemma drivewayRun_append (l₁ l₂ : List (ℚ × ℚ)) :
    drivewayRun (l₁ ++ l₂) = drivewayRunFrom (drivewayRun l₁) l₂ :=
  List.foldl_append _ _ _ _

end DrivewayLemmas

section GarageLemmas

lemma garageStep_dirty (m : ℚ × ℚ) (s : GState) :
    (garageStep m s).dirty = (cleanTransition (garageCell m s) s.dirty s.cleaned).1 := rfl

lemma garageStep_cleaned (m : ℚ × ℚ) (s : GState) :
    (garageStep m s).cleaned = (cleanTransition (garageCell m s) s.dirty s.cleaned).2 := rfl

lemma garageStep_partition (m : ℚ × ℚ) (s : GState)
    (h : Disjoint s.dirty s.cleaned ∧ s.dirty ∪ s.cleaned = garageInitDirty) :
    Disjoint (garageStep m s).dirty (garageStep m s).cleaned ∧
    (garageStep m s).dirty ∪ (garageStep m s).cleaned = garageInitDirty := by
  rw [garageStep_dirty, garageStep_cleaned]
  exact ⟨ct_disjoint _ _ _ h.1, by rw [ct_union, h.2]⟩

lemma garageRun_partition (l : List (ℚ × ℚ)) :
    Disjoint (garageRun l).dirty (garageRun l).cleaned ∧
    (garageRun l).dirty ∪ (garageRun l).cleaned = garageInitDirty := by
  refine foldl_inv garageStep
    (fun t => Disjoint t.dirty t.cleaned ∧ t.dirty ∪ t.cleaned = garageInitDirty)
    garageStep_partition l garageInit ⟨?_, ?_⟩
  · exact Finset.disjoint_empty_right _
  · exact Finset.union_empty _

end GarageLemmas

section OpenLotLemmas

lemma openLotStep_sets (m : ℚ × ℚ) (s : OLState) :
    ((openLotStep m s).dirty = (cleanTransition (openLotCell m s) s.dirty s.cleaned).1 ∧
     (openLotStep m s).cleaned = (cleanTransition (openLotCell m s) s.dirty s.cleaned).2) ∨
    ((openLotStep m s).dirty = s.dirty ∧ (openLotStep m s).cleaned = s.cleaned) := by
  by_cases h : (openLotArea m s).cleanable
  · exact Or.inl ⟨by simp [openLotStep, h], by simp [openLotStep, h]⟩
  · exact Or.inr ⟨by simp [openLotStep, h], by simp [openLotStep, h]⟩

lemma openLotStep_dirty_subset (m : ℚ × ℚ) (s : OLState) :
    (openLotStep m s).dirty ⊆ s.dirty := by
  rcases openLotStep_sets m s with ⟨h, _⟩ | ⟨h, _⟩
  · rw [h]; exact ct_dirty_subset _ _ _
  · rw [h]

lemma openLotStep_cleaned_subset (m : ℚ × ℚ) (s : OLState) :
    s.cleaned ⊆ (openLotStep m s).cleaned := by
  rcases openLotStep_sets m s with ⟨_, h⟩ | ⟨_, h⟩
  · rw [h]; exact ct_cleaned_subset _ _ _
  · rw [h]

lemma openLotStep_partition (m : ℚ × ℚ) (s : OLState)
    (h : Disjoint s.dirty s.cleaned ∧ s.dirty ∪ s.cleaned = openLotInitDirty) :
    Disjoint (openLotStep m s).dirty (openLotStep m s).cleaned ∧
    (openLotStep m s).dirty ∪ (openLotStep m s).cleaned = openLotInitDirty := by
  rcases openLotStep_sets m s with ⟨h1, h2⟩ | ⟨h1, h2⟩ <;> rw [h1, h2]
  · exact ⟨ct_disjoint _ _ _ h.1, by rw [ct_union, h.2]⟩
  · exact h

lemma openLotRun_partition (l : List (ℚ × ℚ)) :
    Disjoint (openLotRun l).dirty (openLotRun l).cleaned ∧
    (openLotRun l).dirty ∪ (openLotRun l).cleaned = openLotInitDirty := by
  refine foldl_inv openLotStep
    (fun t => Disjoint t.dirty t.cleaned ∧ t.dirty ∪ t.cleaned = openLotInitDirty)
    openLotStep_partition l openLotInit ⟨?_, ?_⟩
  · exact Finset.disjoint_empty_right _
  · exact Finset.union_empty _

lemma openLotRunFrom_dirty_subset (s : OLState) (l : List (ℚ × ℚ)) :
    (openLotRunFrom s l).dirty ⊆ s.dirty :=
  foldl_inv openLotStep (fun t => t.dirty ⊆ s.dirty)
    (fun m t ht => (openLotStep_dirty_subset m t).trans ht) l s (fun _ ha => ha)

end OpenLotLemmas

/-- C1: in every environment, for every game state reachable after
initialization, the dirty and cleaned sets are disjoint and their union
equals the set of all cleanable cells of that environment (the set built by
the initialization effect), so every cleanable cell is a member of exactly
one of the two sets. -/
theorem spec_c1_sets_partition_cleanable (l : List (ℚ × ℚ)) :
    (Disjoint (openLotRun l).dirty (openLotRun l).cleaned ∧
      (openLotRun l).dirty ∪ (openLotRun l).cleaned = openLotInitDirty) ∧
    (Disjoint (drivewayRun l).dirty (drivewayRun l).cleaned ∧
      (drivewayRun l).dirty ∪ (drivewayRun l).cleaned = drivewayInitDirty) ∧
    (Disjoint (garageRun l).dirty (garageRun l).cleaned ∧
      (garageRun l).dirty ∪ (garageRun l).cleaned = garageInitDirty) :=
  ⟨openLotRun_partition l, drivewayRun_partition l, garageRun_partition l⟩

/-- C2: cleaning is one-way and at-most-once per cell in the pool-deck
scene: a frame never inserts a cell into the dirty set, a cell removed from
the dirty set lands in the cleaned set, cells of the cleaned set stay there
and never re-enter the dirty set, a frame whose current cell is already
cleaned changes neither set, and the cleaned count is non-decreasing over
any sequence of frames after initialization. -/
theorem spec_c2_cleaning_one_way :
    (∀ (s : DWState) (m : ℚ × ℚ), Disjoint s.dirty s.cleaned →
      ((drivewayStep m s).dirty ⊆ s.dirty ∧
       (∀ c, c ∈ s.dirty → c ∉ (drivewayStep m s).dirty → c ∈ (drivewayStep m s).cleaned) ∧
       (∀ c, c ∈ s.cleaned → c ∈ (drivewayStep m s).cleaned ∧ c ∉ (drivewayStep m s).dirty) ∧
       (drivewayCell m s ∈ s.cleaned →
         (drivewayStep m s).dirty = s.dirty ∧ (drivewayStep m s).cleaned = s.cleaned) ∧
       s.cleaned.card ≤ (drivewayStep m s).cleaned.card)) ∧
    (∀ l₁ l₂ : List (ℚ × ℚ),
      (drivewayRun (l₁ ++ l₂)).dirty ⊆ (drivewayRun l₁).dirty ∧
      (drivewayRun l₁).cleaned.card ≤ (drivewayRun (l₁ ++ l₂)).cleaned.card ∧
      (∀ c, c ∈ (drivewayRun l₁).cleaned →
        c ∈ (drivewayRun (l₁ ++ l₂)).cleaned ∧ c ∉ (drivewayRun (l₁ ++ l₂)).dirty)) := by
  constructor
  · intro s m hdis
    refine ⟨drivewayStep_dirty_subset m s, ?_, ?_, ?_, ?_⟩
    · intro c hc hnc
      rw [drivewayStep_cleaned]
      exact ct_removed _ _ _ hc (by rwa [drivewayStep_dirty] at hnc)
    · intro c hc
      refine ⟨drivewayStep_cleaned_subset m s hc, fun hcd => ?_⟩
      exact Finset.disjoint_right.mp hdis hc (drivewayStep_dirty_subset m s hcd)
    · intro hc
      rw [drivewayStep_dirty, drivewayStep_cleaned, ct_frozen _ _ _ hdis hc]
      exact ⟨rfl, rfl⟩
    · exact ct_card_le _ _ _
  · intro l₁ l₂
    rw [drivewayRun_append]
    refine ⟨drivewayRunFrom_dirty_subset _ _,
      Finset.card_le_card (drivewayRunFrom_cleaned_subset _ _), ?_⟩
    intro c hc
    have hmem : c ∈ (drivewayRunFrom (drivewayRun l₁) l₂).cleaned :=
      drivewayRunFrom_cleaned_subset _ _ hc
    refine ⟨hmem, fun hcd => ?_⟩
    have hdis := (drivewayRun_partition (l₁ ++ l₂)).1
    rw [drivewayRun_append] at hdis
    exact Finset.disjoint_right.mp hdis hmem hcd

/-- Witness for C2: a frame over an already-cleaned cell changes neither
set, and a frame over a dirty cell moves it into the cleaned set. -/
theorem spec_c2_cleaning_one_way_witness :
    ((drivewayStep (0, 0) ⟨-8, 0.089, -8, {((1:ℤ), (1:ℤ))}, {((-8:ℤ), (-8:ℤ))}⟩).dirty
        = ({((1:ℤ), (1:ℤ))} : Finset (ℤ × ℤ)) ∧
     (drivewayStep (0, 0) ⟨-8, 0.089, -8, {((1:ℤ), (1:ℤ))}, {((-8:ℤ), (-8:ℤ))}⟩).cleaned
        = ({((-8:ℤ), (-8:ℤ))} : Finset (ℤ × ℤ))) ∧
    (((-8:ℤ), (-8:ℤ)) ∈ (drivewayStep (0, 0) ⟨-8, 0.089, -8, {((-8:ℤ), (-8:ℤ))}, ∅⟩).cleaned) ∧
    ({((-8:ℤ), (-8:ℤ))} : Finset (ℤ × ℤ)).card ≤
      (drivewayStep (0, 0) ⟨-8, 0.089, -8, {((1:ℤ), (1:ℤ))}, {((-8:ℤ), (-8:ℤ))}⟩).cleaned.card := by
  have hcellA : drivewayCell (0, 0) ⟨-8, 0.089, -8, {((1:ℤ), (1:ℤ))}, {((-8:ℤ), (-8:ℤ))}⟩
      = ((-8:ℤ), (-8:ℤ)) := by
    norm_num [drivewayCell, drivewayMove, isInPool, inPoolRect, Driveway.POOL_BOUNDS,
      PLANTER_POSITIONS, PLANTER_SIZE, MOVEMENT_SPEED, clampQ, jround, Driveway.GAME_BOUNDS,
      max_def, min_def, abs_lt]
  have hcellB : drivewayCell (0, 0) ⟨-8, 0.089, -8, {((-8:ℤ), (-8:ℤ))}, ∅⟩
      = ((-8:ℤ), (-8:ℤ)) := by
    norm_num [drivewayCell, drivewayMove, isInPool, inPoolRect, Driveway.POOL_BOUNDS,
      PLANTER_POSITIONS, PLANTER_SIZE, MOVEMENT_SPEED, clampQ, jround, Driveway.GAME_BOUNDS,
      max_def, min_def, abs_lt]
  have hA := spec_c2_cleaning_one_way.1 ⟨-8, 0.089, -8, {((1:ℤ), (1:ℤ))}, {((-8:ℤ), (-8:ℤ))}⟩
    (0, 0) (by simp)
  have hB := spec_c2_cleaning_one_way.1 ⟨-8, 0.089, -8, {((-8:ℤ), (-8:ℤ))}, ∅⟩
    (0, 0) (by simp)
  have hfrozen := hA.2.2.2.1 (by rw [hcellA]; simp)
  have hnotB : ((-8:ℤ), (-8:ℤ)) ∉ (drivewayStep (0, 0)
      ⟨-8, 0.089, -8, {((-8:ℤ), (-8:ℤ))}, ∅⟩).dirty := by
    rw [drivewayStep_dirty, hcellB]
    simp [cleanTransition]
  exact ⟨hfrozen, hB.2.1 _ (by simp) hnotB, hA.2.2.2.2⟩

section MoveLemmas

lemma drivewayStep_x (m : ℚ × ℚ) (s : DWState) :
    (drivewayStep m s).x = (drivewayMove m s).1 := rfl

lemma drivewayStep_y (m : ℚ × ℚ) (s : DWState) :
    (drivewayStep m s).y = (drivewayMove m s).2.1 := rfl

lemma drivewayStep_z (m : ℚ × ℚ) (s : DWState) :
    (drivewayStep m s).z = (drivewayMove m s).2.2 := rfl

lemma drivewayMove_rej (m : ℚ × ℚ) (s : DWState)
    (hp : isInPool (s.x + m.1 * MOVEMENT_SPEED) (s.z + m.2 * MOVEMENT_SPEED)) :
    drivewayMove m s = (s.x, s.y, s.z) := by
  unfold drivewayMove
  rw [if_pos hp]

lemma drivewayMove_acc (m : ℚ × ℚ) (s : DWState)
    (hp : ¬ isInPool (s.x + m.1 * MOVEMENT_SPEED) (s.z + m.2 * MOVEMENT_SPEED)) :
    drivewayMove m s =
      (clampQ (Driveway.GAME_BOUNDS.minX : ℚ) (Driveway.GAME_BOUNDS.maxX : ℚ)
        (s.x + m.1 * MOVEMENT_SPEED),
       Driveway.SURFACE_HEIGHTS.poolDeck + 0.069,
       clampQ (Driveway.GAME_BOUNDS.minZ : ℚ) (Driveway.GAME_BOUNDS.maxZ : ℚ)
        (s.z + m.2 * MOVEMENT_SPEED)) := by
  unfold drivewayMove
  rw [if_neg hp]

lemma garageStep_x (m : ℚ × ℚ) (s : GState) :
    (garageStep m s).x = (garageMove m s).1 := rfl

lemma garageStep_y (m : ℚ × ℚ) (s : GState) :
    (garageStep m s).y = (garageMove m s).2.1 := rfl

lemma garageStep_z (m : ℚ × ℚ) (s : GState) :
    (garageStep m s).z = (garageMove m s).2.2 := rfl

lemma garageMove_rej (m : ℚ × ℚ) (s : GState)
    (hp : isInCarArea (s.x + m.1 * MOVEMENT_SPEED) (s.z + m.2 * MOVEMENT_SPEED)) :
    garageMove m s = (s.x, s.y, s.z) := by
  unfold garageMove
  rw [if_pos hp]

lemma garageMove_acc (m : ℚ × ℚ) (s : GState)
    (hp : ¬ isInCarArea (s.x + m.1 * MOVEMENT_SPEED) (s.z + m.2 * MOVEMENT_SPEED)) :
    garageMove m s =
      (clampQ (Garage.GAME_BOUNDS.minX : ℚ) (Garage.GAME_BOUNDS.maxX : ℚ)
        (s.x + m.1 * MOVEMENT_SPEED),
       0.069,
       clampQ (Garage.GAME_BOUNDS.minZ : ℚ) (Garage.GAME_BOUNDS.maxZ : ℚ)
        (s.z + m.2 * MOVEMENT_SPEED)) := by
  unfold garageMove
  rw [if_neg hp]

/-- The accepted driveway update cannot land inside the pool rectangle:
the clamp targets are outside it, so a clamped coordinate inside the pool
range was already inside before clamping. -/
lemma drivewayStep_keeps_out_of_pool (m : ℚ × ℚ) (s : DWState)
    (h : ¬ inPoolRect s.x s.z) :
    ¬ inPoolRect (drivewayStep m s).x (drivewayStep m s).z := by
  rw [drivewayStep_x, drivewayStep_z]
  by_cases hp : isInPool (s.x + m.1 * MOVEMENT_SPEED) (s.z + m.2 * MOVEMENT_SPEED)
  · rw [drivewayMove_rej m s hp]
    exact h
  · rw [drivewayMove_acc m s hp]
    rintro ⟨hx1, hx2, hz1, hz2⟩
    have hx := clampQ_between (by norm_num [Driveway.GAME_BOUNDS, Driveway.POOL_BOUNDS])
      (by norm_num [Driveway.GAME_BOUNDS, Driveway.POOL_BOUNDS]) hx1 hx2
    have hz := clampQ_between (by norm_num [Driveway.GAME_BOUNDS, Driveway.POOL_BOUNDS])
      (by norm_num [Driveway.GAME_BOUNDS, Driveway.POOL_BOUNDS]) hz1 hz2
    exact hp (Or.inl ⟨hx.1, hx.2, hz.1, hz.2⟩)

end MoveLemmas

/-- C3: in the pool-deck scene, starting from any position outside the pool
rectangle, no sequence of frames with any intent vectors ever places the
avatar inside the pool rectangle; moreover any frame whose candidate
position lies inside the pool rectangle is rejected wholesale. -/
theorem spec_c3_pool_never_entered :
    (∀ (s : DWState), ¬ inPoolRect s.x s.z → ∀ l : List (ℚ × ℚ),
      ¬ inPoolRect (drivewayRunFrom s l).x (drivewayRunFrom s l).z) ∧
    (∀ (s : DWState) (m : ℚ × ℚ),
      inPoolRect (s.x + m.1 * MOVEMENT_SPEED) (s.z + m.2 * MOVEMENT_SPEED) →
      (drivewayStep m s).x = s.x ∧ (drivewayStep m s).y = s.y ∧
        (drivewayStep m s).z = s.z) := by
  constructor
  · intro s hs l
    exact foldl_inv drivewayStep (fun t => ¬ inPoolRect t.x t.z)
      (fun m t ht => drivewayStep_keeps_out_of_pool m t ht) l s hs
  · intro s m hp
    rw [drivewayStep_x, drivewayStep_y, drivewayStep_z,
      drivewayMove_rej m s (Or.inl hp)]
    exact ⟨rfl, rfl, rfl⟩

/-- Witness for C3: an avatar starting at (-8, -8) stays out of the pool
rectangle, and an intent aimed into the pool from (0, -4.1) is rejected. -/
theorem spec_c3_pool_never_entered_witness :
    (¬ inPoolRect (drivewayRunFrom ⟨-8, 0.089, -8, ∅, ∅⟩ [(1, 1)]).x
        (drivewayRunFrom ⟨-8, 0.089, -8, ∅, ∅⟩ [(1, 1)]).z) ∧
    ((drivewayStep (0, 1) ⟨0, 0.089, -4.1, ∅, ∅⟩).x = (0 : ℚ) ∧
     (drivewayStep (0, 1) ⟨0, 0.089, -4.1, ∅, ∅⟩).y = (0.089 : ℚ) ∧
     (drivewayStep (0, 1) ⟨0, 0.089, -4.1, ∅, ∅⟩).z = (-4.1 : ℚ)) := by
  constructor
  · exact spec_c3_pool_never_entered.1 ⟨-8, 0.089, -8, ∅, ∅⟩
      (by norm_num [inPoolRect, Driveway.POOL_BOUNDS]) [(1, 1)]
  · exact spec_c3_pool_never_entered.2 ⟨0, 0.089, -4.1, ∅, ∅⟩ (0, 1)
      (by norm_num [inPoolRect, Driveway.POOL_BOUNDS, MOVEMENT_SPEED])

/-- C4: in the pool-deck and garage scenes a candidate position inside an
obstacle region rejects the whole position update for the frame (x, y and z
all keep their previous values, with no clamping and no height snap), while
the open-lot scene has no obstacle check and always commits the clamped
candidate coordinates. -/
theorem spec_c4_obstacle_rejects_whole_update :
    (∀ (s : DWState) (m : ℚ × ℚ),
      isInPool (s.x + m.1 * MOVEMENT_SPEED) (s.z + m.2 * MOVEMENT_SPEED) →
      (drivewayStep m s).x = s.x ∧ (drivewayStep m s).y = s.y ∧
        (drivewayStep m s).z = s.z) ∧
    (∀ (s : GState) (m : ℚ × ℚ),
      isInCarArea (s.x + m.1 * MOVEMENT_SPEED) (s.z + m.2 * MOVEMENT_SPEED) →
      (garageStep m s).x = s.x ∧ (garageStep m s).y = s.y ∧
        (garageStep m s).z = s.z) ∧
    (∀ (s : OLState) (m : ℚ × ℚ),
      (openLotStep m s).x = clampQ (OpenLot.GAME_BOUNDS.minX : ℚ)
          (OpenLot.GAME_BOUNDS.maxX : ℚ) (s.x + m.1 * MOVEMENT_SPEED) ∧
      (openLotStep m s).z = clampQ (OpenLot.GAME_BOUNDS.minZ : ℚ)
          (OpenLot.GAME_BOUNDS.maxZ : ℚ) (s.z + m.2 * MOVEMENT_SPEED)) := by
  refine ⟨fun s m hp => ?_, fun s m hp => ?_, fun s m => ⟨rfl, rfl⟩⟩
  · rw [drivewayStep_x, drivewayStep_y, drivewayStep_z, drivewayMove_rej m s hp]
    exact ⟨rfl, rfl, rfl⟩
  · rw [garageStep_x, garageStep_y, garageStep_z, garageMove_rej m s hp]
    exact ⟨rfl, rfl, rfl⟩

/-- Witness for C4: a pool-bound intent from (0, -4.1), a car-bound intent
from (-8, -4.6), and an open-lot frame from the initial position. -/
theorem spec_c4_obstacle_rejects_whole_update_witness :
    ((drivewayStep (0, 1) ⟨0, 0.1, -4.1, ∅, ∅⟩).x = (0 : ℚ) ∧
     (drivewayStep (0, 1) ⟨0, 0.1, -4.1, ∅, ∅⟩).y = (0.1 : ℚ) ∧
     (drivewayStep (0, 1) ⟨0, 0.1, -4.1, ∅, ∅⟩).z = (-4.1 : ℚ)) ∧
    ((garageStep (0, -1) ⟨-8, 0.069, -4.6, ∅, ∅⟩).x = (-8 : ℚ) ∧
     (garageStep (0, -1) ⟨-8, 0.069, -4.6, ∅, ∅⟩).y = (0.069 : ℚ) ∧
     (garageStep (0, -1) ⟨-8, 0.069, -4.6, ∅, ∅⟩).z = (-4.6 : ℚ)) ∧
    ((openLotStep (1, 0) ⟨0, 0.069, 0, ∅, ∅⟩).x =
        clampQ (OpenLot.GAME_BOUNDS.minX : ℚ) (OpenLot.GAME_BOUNDS.maxX : ℚ)
          (0 + 1 * MOVEMENT_SPEED) ∧
     (openLotStep (1, 0) ⟨0, 0.069, 0, ∅, ∅⟩).z =
        clampQ (OpenLot.GAME_BOUNDS.minZ : ℚ) (OpenLot.GAME_BOUNDS.maxZ : ℚ)
          (0 + 0 * MOVEMENT_SPEED)) := by
  refine ⟨spec_c4_obstacle_rejects_whole_update.1 ⟨0, 0.1, -4.1, ∅, ∅⟩ (0, 1) ?_,
    spec_c4_obstacle_rejects_whole_update.2.1 ⟨-8, 0.069, -4.6, ∅, ∅⟩ (0, -1) ?_,
    spec_c4_obstacle_rejects_whole_update.2.2 ⟨0, 0.069, 0, ∅, ∅⟩ (1, 0)⟩
  · exact Or.inl (by norm_num [inPoolRect, Driveway.POOL_BOUNDS, MOVEMENT_SPEED])
  · norm_num [isInCarArea, CAR_BOUNDS, MOVEMENT_SPEED, abs_lt]

/-- The pool-deck scene has at least one cleanable cell (e.g. the corner
(-12, -12)). -/
lemma drivewayTotalCells_pos : 0 < drivewayTotalCells := by
  apply Finset.card_pos.mpr
  refine ⟨(-12, -12), ?_⟩
  rw [drivewayInitDirty, Finset.mem_filter, Finset.mem_product]
  refine ⟨⟨?_, ?_⟩, ?_⟩
  · simp [Driveway.GAME_BOUNDS]
  · simp [Driveway.GAME_BOUNDS]
  · norm_num [isInPool, inPoolRect, Driveway.POOL_BOUNDS, PLANTER_POSITIONS, PLANTER_SIZE]

/-- C5: the stats effect emits a report exactly under the `totalCount > 0`
guard, with progress = cleaned/total*100 rounded to one decimal place,
cleanedTiles, totalTiles and remainingTiles = total - cleaned; with
totalCount = 0 it emits nothing; and in the pool-deck scene a frame that
changes the cleaned set emits such a report. -/
theorem spec_c5_stats_report :
    (∀ cc tc : ℕ, 0 < tc →
      statsUpdate cc tc = some ⟨toFixed1 ((cc : ℚ) / (tc : ℚ) * 100), cc, tc,
        (tc : ℤ) - (cc : ℤ)⟩) ∧
    (∀ cc : ℕ, statsUpdate cc 0 = none) ∧
    (∀ (s : DWState) (m : ℚ × ℚ),
      (drivewayStep m s).cleaned.card ≠ s.cleaned.card →
      drivewayFrameReport m s =
        some ⟨toFixed1 (((drivewayStep m s).cleaned.card : ℚ) / (drivewayTotalCells : ℚ) * 100),
          (drivewayStep m s).cleaned.card, drivewayTotalCells,
          (drivewayTotalCells : ℤ) - ((drivewayStep m s).cleaned.card : ℤ)⟩) := by
  refine ⟨fun cc tc h => ?_, fun cc => ?_, fun s m hcard => ?_⟩
  · unfold statsUpdate
    rw [if_pos h]
  · unfold statsUpdate
    rw [if_neg (by omega)]
  · unfold drivewayFrameReport
    rw [if_pos (fun heq => hcard (by rw [heq]))]
    unfold statsUpdate
    rw [if_pos drivewayTotalCells_pos]

/-- Witness for C5: a concrete report, the empty-environment guard, and a
pool-deck frame that cleans the cell (-8, -8). -/
theorem spec_c5_stats_report_witness :
    (statsUpdate 0 1 = some ⟨toFixed1 ((0 : ℚ) / (1 : ℚ) * 100), 0, 1,
      (1 : ℤ) - (0 : ℤ)⟩) ∧
    (statsUpdate 5 0 = none) ∧
    (drivewayFrameReport (0, 0) ⟨-8, 0.089, -8, {((-8:ℤ), (-8:ℤ))}, ∅⟩ =
      some ⟨toFixed1 (((drivewayStep (0, 0)
            ⟨-8, 0.089, -8, {((-8:ℤ), (-8:ℤ))}, ∅⟩).cleaned.card : ℚ) /
            (drivewayTotalCells : ℚ) * 100),
        (drivewayStep (0, 0) ⟨-8, 0.089, -8, {((-8:ℤ), (-8:ℤ))}, ∅⟩).cleaned.card,
        drivewayTotalCells,
        (drivewayTotalCells : ℤ) - ((drivewayStep (0, 0)
            ⟨-8, 0.089, -8, {((-8:ℤ), (-8:ℤ))}, ∅⟩).cleaned.card : ℤ)⟩) := by
  refine ⟨spec_c5_stats_report.1 0 1 (by norm_num), spec_c5_stats_report.2.1 5,
    spec_c5_stats_report.2.2 ⟨-8, 0.089, -8, {((-8:ℤ), (-8:ℤ))}, ∅⟩ (0, 0) ?_⟩
  have hstep : (drivewayStep (0, 0) ⟨-8, 0.089, -8, {((-8:ℤ), (-8:ℤ))}, ∅⟩).cleaned =
      {((-8:ℤ), (-8:ℤ))} := by
    norm_num [drivewayStep, drivewayCell, drivewayMove, cleanTransition, isInPool, inPoolRect,
      Driveway.POOL_BOUNDS, PLANTER_POSITIONS, PLANTER_SIZE, MOVEMENT_SPEED, clampQ, jround,
      Driveway.GAME_BOUNDS, max_def, min_def, abs_lt]
  rw [hstep]
  simp

/-- On integer grid points the car-footprint test is an exact integer
condition: the strict rational bounds pin x to -8 and z to -7..-5. -/
lemma isInCarArea_int (x z : ℤ) :
    isInCarArea (x : ℚ) (z : ℚ) ↔ x = -8 ∧ (-7 ≤ z ∧ z ≤ -5) := by
  unfold isInCarArea
  rw [show ((x : ℚ) - CAR_BOUNDS.x) = ((x + 8 : ℤ) : ℚ) by push_cast [CAR_BOUNDS]; ring,
      show ((z : ℚ) - CAR_BOUNDS.z) = ((z + 6 : ℤ) : ℚ) by push_cast [CAR_BOUNDS]; ring,
      ← Int.cast_abs, ← Int.cast_abs]
  constructor
  · rintro ⟨h1, h2⟩
    rw [show CAR_BOUNDS.width / 2 = (3 : ℚ) / 4 by norm_num [CAR_BOUNDS]] at h1
    rw [show CAR_BOUNDS.length / 2 = (3 : ℚ) / 2 by norm_num [CAR_BOUNDS]] at h2
    have hx : |x + 8| < 1 := by
      by_contra hge
      push_neg at hge
      have hc : (1 : ℚ) ≤ ((|x + 8| : ℤ) : ℚ) := by exact_mod_cast hge
      linarith
    have hz : |z + 6| < 2 := by
      by_contra hge
      push_neg at hge
      have hc : (2 : ℚ) ≤ ((|z + 6| : ℤ) : ℚ) := by exact_mod_cast hge
      linarith
    rw [abs_lt] at hx hz
    omega
  · rintro ⟨rfl, hz1, hz2⟩
    constructor
    · norm_num [CAR_BOUNDS]
    · have hz : |z + 6| ≤ 1 := by rw [abs_le]; omega
      have hc : ((|z + 6| : ℤ) : ℚ) ≤ 1 := by exact_mod_cast hz
      rw [show CAR_BOUNDS.length / 2 = (3 : ℚ) / 2 by norm_num [CAR_BOUNDS]]
      linarith

set_option maxRecDepth 8000 in
/-- C6: the garage's initialized cleanable cell count is the full 31 x 21
grid minus the integer cells inside the car footprint, which number exactly
3, giving 648. -/
theorem spec_c6_garage_total_count :
    garageTotalCells = 31 * 21 - garageCarCells ∧ garageCarCells = 3 ∧
      garageTotalCells = 648 := by
  have hcar : garageCarCells = 3 := by
    unfold garageCarCells
    rw [Finset.filter_congr (fun p _ => by rw [isInCarArea_int p.1 p.2])]
    decide
  have htot : garageTotalCells = 648 := by
    unfold garageTotalCells garageInitDirty
    rw [Finset.filter_congr (fun p _ => not_congr (isInCarArea_int p.1 p.2))]
    decide
  exact ⟨by rw [htot, hcar], hcar, htot⟩

section MaxXLemmas

lemma openLot_at_max_x_fixed :
    ∀ (n : ℕ) (s : OLState), s.x = 17 → (-26 : ℚ) ≤ s.z → s.z ≤ -4 →
      (openLotRunFrom s (List.replicate n (1, 0))).x = 17 ∧
      (openLotRunFrom s (List.replicate n (1, 0))).z = s.z := by
  intro n
  induction n with
  | zero => exact fun s hx _ _ => ⟨hx, rfl⟩
  | succ k ih =>
    intro s hx hz1 hz2
    have hx' : (openLotStep (1, 0) s).x = 17 := by
      show (openLotClamp (1, 0) s).1 = 17
      unfold openLotClamp
      rw [hx]
      norm_num [clampQ, OpenLot.GAME_BOUNDS, MOVEMENT_SPEED, max_def, min_def]
    have hz' : (openLotStep (1, 0) s).z = s.z := by
      show (openLotClamp (1, 0) s).2 = s.z
      unfold openLotClamp
      have harith : s.z + ((1 : ℚ), (0 : ℚ)).2 * MOVEMENT_SPEED = s.z := by norm_num
      rw [harith]
      exact clampQ_eq_self (by norm_num [OpenLot.GAME_BOUNDS]; linarith)
        (by norm_num [OpenLot.GAME_BOUNDS]; linarith)
    have hrun : openLotRunFrom s (List.replicate (k + 1) (1, 0)) =
        openLotRunFrom (openLotStep (1, 0) s) (List.replicate k (1, 0)) := by
      rw [List.replicate_succ]
      rfl
    obtain ⟨ihx, ihz⟩ := ih (openLotStep (1, 0) s) hx'
      (by rw [hz']; exact hz1) (by rw [hz']; exact hz2)
    rw [hrun]
    exact ⟨ihx, by rw [ihz, hz']⟩

lemma driveway_at_max_x_not_pool (s : DWState) (hx : s.x = 12) :
    ¬ isInPool (s.x + (1 : ℚ) * MOVEMENT_SPEED) (s.z + (0 : ℚ) * MOVEMENT_SPEED) := by
  rw [hx]
  rintro (⟨h1, h2, h3, h4⟩ | ⟨p, hp, hxp, hzp⟩)
  · norm_num [Driveway.POOL_BOUNDS, MOVEMENT_SPEED] at h2
  · simp only [PLANTER_POSITIONS, List.mem_cons, List.not_mem_nil, or_false] at hp
    rcases hp with h | h | h | h <;> rw [h] at hxp <;>
      norm_num [PLANTER_SIZE, MOVEMENT_SPEED, abs_lt] at hxp

lemma driveway_at_max_x_fixed :
    ∀ (n : ℕ) (s : DWState), s.x = 12 → (-12 : ℚ) ≤ s.z → s.z ≤ 12 →
      (drivewayRunFrom s (List.replicate n (1, 0))).x = 12 ∧
      (drivewayRunFrom s (List.replicate n (1, 0))).z = s.z := by
  intro n
  induction n with
  | zero => exact fun s hx _ _ => ⟨hx, rfl⟩
  | succ k ih =>
    intro s hx hz1 hz2
    have hnp := driveway_at_max_x_not_pool s hx
    have hx' : (drivewayStep (1, 0) s).x = 12 := by
      rw [drivewayStep_x, drivewayMove_acc (1, 0) s hnp]
      norm_num [hx, clampQ, Driveway.GAME_BOUNDS, MOVEMENT_SPEED, max_def, min_def]
    have hz' : (drivewayStep (1, 0) s).z = s.z := by
      rw [drivewayStep_z, drivewayMove_acc (1, 0) s hnp]
      have harith : s.z + ((1 : ℚ), (0 : ℚ)).2 * MOVEMENT_SPEED = s.z := by norm_num
      show clampQ _ _ (s.z + ((1 : ℚ), (0 : ℚ)).2 * MOVEMENT_SPEED) = s.z
      rw [harith]
      exact clampQ_eq_self (by norm_num [Driveway.GAME_BOUNDS]; linarith)
        (by norm_num [Driveway.GAME_BOUNDS]; linarith)
    have hrun : drivewayRunFrom s (List.replicate (k + 1) (1, 0)) =
        drivewayRunFrom (drivewayStep (1, 0) s) (List.replicate k (1, 0)) := by
      rw [List.replicate_succ]
      rfl
    obtain ⟨ihx, ihz⟩ := ih (drivewayStep (1, 0) s) hx'
      (by rw [hz']; exact hz1) (by rw [hz']; exact hz2)
    rw [hrun]
    exact ⟨ihx, by rw [ihz, hz']⟩

lemma garage_at_max_x_not_car (s : GState) (hx : s.x = 15) :
    ¬ isInCarArea (s.x + (1 : ℚ) * MOVEMENT_SPEED) (s.z + (0 : ℚ) * MOVEMENT_SPEED) := by
  rw [hx]
  rintro ⟨h1, h2⟩
  norm_num [CAR_BOUNDS, MOVEMENT_SPEED, abs_lt] at h1

lemma garage_at_max_x_fixed :
    ∀ (n : ℕ) (s : GState), s.x = 15 → (-10 : ℚ) ≤ s.z → s.z ≤ 10 →
      (garageRunFrom s (List.replicate n (1, 0))).x = 15 ∧
      (garageRunFrom s (List.replicate n (1, 0))).z = s.z := by
  intro n
  induction n with
  | zero => exact fun s hx _ _ => ⟨hx, rfl⟩
  | succ k ih =>
    intro s hx hz1 hz2
    have hnp := garage_at_max_x_not_car s hx
    have hx' : (garageStep (1, 0) s).x = 15 := by
      rw [garageStep_x, garageMove_acc (1, 0) s hnp]
      norm_num [hx, clampQ, Garage.GAME_BOUNDS, MOVEMENT_SPEED, max_def, min_def]
    have hz' : (garageStep (1, 0) s).z = s.z := by
      rw [garageStep_z, garageMove_acc (1, 0) s hnp]
      have harith : s.z + ((1 : ℚ), (0 : ℚ)).2 * MOVEMENT_SPEED = s.z := by norm_num
      show clampQ _ _ (s.z + ((1 : ℚ), (0 : ℚ)).2 * MOVEMENT_SPEED) = s.z
      rw [harith]
      exact clampQ_eq_self (by norm_num [Garage.GAME_BOUNDS]; linarith)
        (by norm_num [Garage.GAME_BOUNDS]; linarith)
    have hrun : garageRunFrom s (List.replicate (k + 1) (1, 0)) =
        garageRunFrom (garageStep (1, 0) s) (List.replicate k (1, 0)) := by
      rw [List.replicate_succ]
      rfl
    obtain ⟨ihx, ihz⟩ := ih (garageStep (1, 0) s) hx'
      (by rw [hz']; exact hz1) (by rw [hz']; exact hz2)
    rw [hrun]
    exact ⟨ihx, by rw [ihz, hz']⟩

end MaxXLemmas

/-- C7: whenever the obstacle check passes (always, in the open lot), the
committed x and z are independently clamped into the scene's rectangular
bounds, so the committed position is in bounds; and starting exactly on the
maximum-x boundary with intent (1, 0), any number of frames leaves the
planar position unchanged on that boundary, never out of bounds. -/
theorem spec_c7_clamped_within_bounds :
    (∀ (s : OLState) (m : ℚ × ℚ),
      ((OpenLot.GAME_BOUNDS.minX : ℚ) ≤ (openLotStep m s).x ∧
        (openLotStep m s).x ≤ (OpenLot.GAME_BOUNDS.maxX : ℚ)) ∧
      ((OpenLot.GAME_BOUNDS.minZ : ℚ) ≤ (openLotStep m s).z ∧
        (openLotStep m s).z ≤ (OpenLot.GAME_BOUNDS.maxZ : ℚ))) ∧
    (∀ (s : DWState) (m : ℚ × ℚ),
      ¬ isInPool (s.x + m.1 * MOVEMENT_SPEED) (s.z + m.2 * MOVEMENT_SPEED) →
      ((Driveway.GAME_BOUNDS.minX : ℚ) ≤ (drivewayStep m s).x ∧
        (drivewayStep m s).x ≤ (Driveway.GAME_BOUNDS.maxX : ℚ)) ∧
      ((Driveway.GAME_BOUNDS.minZ : ℚ) ≤ (drivewayStep m s).z ∧
        (drivewayStep m s).z ≤ (Driveway.GAME_BOUNDS.maxZ : ℚ))) ∧
    (∀ (s : GState) (m : ℚ × ℚ),
      ¬ isInCarArea (s.x + m.1 * MOVEMENT_SPEED) (s.z + m.2 * MOVEMENT_SPEED) →
      ((Garage.GAME_BOUNDS.minX : ℚ) ≤ (garageStep m s).x ∧
        (garageStep m s).x ≤ (Garage.GAME_BOUNDS.maxX : ℚ)) ∧
      ((Garage.GAME_BOUNDS.minZ : ℚ) ≤ (garageStep m s).z ∧
        (garageStep m s).z ≤ (Garage.GAME_BOUNDS.maxZ : ℚ))) ∧
    (∀ (n : ℕ) (s : OLState), s.x = 17 → (-26 : ℚ) ≤ s.z → s.z ≤ -4 →
      (openLotRunFrom s (List.replicate n (1, 0))).x = 17 ∧
      (openLotRunFrom s (List.replicate n (1, 0))).z = s.z) ∧
    (∀ (n : ℕ) (s : DWState), s.x = 12 → (-12 : ℚ) ≤ s.z → s.z ≤ 12 →
      (drivewayRunFrom s (List.replicate n (1, 0))).x = 12 ∧
      (drivewayRunFrom s (List.replicate n (1, 0))).z = s.z) ∧
    (∀ (n : ℕ) (s : GState), s.x = 15 → (-10 : ℚ) ≤ s.z → s.z ≤ 10 →
      (garageRunFrom s (List.replicate n (1, 0))).x = 15 ∧
      (garageRunFrom s (List.replicate n (1, 0))).z = s.z) := by
  refine ⟨fun s m => ?_, fun s m hp => ?_, fun s m hp => ?_,
    openLot_at_max_x_fixed, driveway_at_max_x_fixed, garage_at_max_x_fixed⟩
  · exact ⟨clampQ_mem (by norm_num [OpenLot.GAME_BOUNDS]) _,
      clampQ_mem (by norm_num [OpenLot.GAME_BOUNDS]) _⟩
  · rw [drivewayStep_x, drivewayStep_z, drivewayMove_acc m s hp]
    exact ⟨clampQ_mem (by norm_num [Driveway.GAME_BOUNDS]) _,
      clampQ_mem (by norm_num [Driveway.GAME_BOUNDS]) _⟩
  · rw [garageStep_x, garageStep_z, garageMove_acc m s hp]
    exact ⟨clampQ_mem (by norm_num [Garage.GAME_BOUNDS]) _,
      clampQ_mem (by norm_num [Garage.GAME_BOUNDS]) _⟩

/-- Witness for C7: in-bounds commits in each scene and three frames of
intent (1, 0) from each scene's maximum-x boundary. -/
theorem spec_c7_clamped_within_bounds_witness :
    (((OpenLot.GAME_BOUNDS.minX : ℚ) ≤ (openLotStep (1, 1) ⟨0, 0.069, 0, ∅, ∅⟩).x ∧
      (openLotStep (1, 1) ⟨0, 0.069, 0, ∅, ∅⟩).x ≤ (OpenLot.GAME_BOUNDS.maxX : ℚ)) ∧
     ((OpenLot.GAME_BOUNDS.minZ : ℚ) ≤ (openLotStep (1, 1) ⟨0, 0.069, 0, ∅, ∅⟩).z ∧
      (openLotStep (1, 1) ⟨0, 0.069, 0, ∅, ∅⟩).z ≤ (OpenLot.GAME_BOUNDS.maxZ : ℚ))) ∧
    (((Driveway.GAME_BOUNDS.minX : ℚ) ≤ (drivewayStep (0, 0) ⟨-8, 0.089, -8, ∅, ∅⟩).x ∧
      (drivewayStep (0, 0) ⟨-8, 0.089, -8, ∅, ∅⟩).x ≤ (Driveway.GAME_BOUNDS.maxX : ℚ)) ∧
     ((Driveway.GAME_BOUNDS.minZ : ℚ) ≤ (drivewayStep (0, 0) ⟨-8, 0.089, -8, ∅, ∅⟩).z ∧
      (drivewayStep (0, 0) ⟨-8, 0.089, -8, ∅, ∅⟩).z ≤ (Driveway.GAME_BOUNDS.maxZ : ℚ))) ∧
    (((Garage.GAME_BOUNDS.minX : ℚ) ≤ (garageStep (0, 0) ⟨0, 0.069, 0, ∅, ∅⟩).x ∧
      (garageStep (0, 0) ⟨0, 0.069, 0, ∅, ∅⟩).x ≤ (Garage.GAME_BOUNDS.maxX : ℚ)) ∧
     ((Garage.GAME_BOUNDS.minZ : ℚ) ≤ (garageStep (0, 0) ⟨0, 0.069, 0, ∅, ∅⟩).z ∧
      (garageStep (0, 0) ⟨0, 0.069, 0, ∅, ∅⟩).z ≤ (Garage.GAME_BOUNDS.maxZ : ℚ))) ∧
    ((openLotRunFrom ⟨17, 0.069, -5, ∅, ∅⟩ (List.replicate 3 (1, 0))).x = 17 ∧
     (openLotRunFrom ⟨17, 0.069, -5, ∅, ∅⟩ (List.replicate 3 (1, 0))).z = (-5 : ℚ)) ∧
    ((drivewayRunFrom ⟨12, 0.089, 0, ∅, ∅⟩ (List.replicate 3 (1, 0))).x = 12 ∧
     (drivewayRunFrom ⟨12, 0.089, 0, ∅, ∅⟩ (List.replicate 3 (1, 0))).z = (0 : ℚ)) ∧
    ((garageRunFrom ⟨15, 0.069, 0, ∅, ∅⟩ (List.replicate 3 (1, 0))).x = 15 ∧
     (garageRunFrom ⟨15, 0.069, 0, ∅, ∅⟩ (List.replicate 3 (1, 0))).z = (0 : ℚ)) := by
  refine ⟨spec_c7_clamped_within_bounds.1 ⟨0, 0.069, 0, ∅, ∅⟩ (1, 1),
    spec_c7_clamped_within_bounds.2.1 ⟨-8, 0.089, -8, ∅, ∅⟩ (0, 0) ?_,
    spec_c7_clamped_within_bounds.2.2.1 ⟨0, 0.069, 0, ∅, ∅⟩ (0, 0) ?_,
    spec_c7_clamped_within_bounds.2.2.2.1 3 ⟨17, 0.069, -5, ∅, ∅⟩ rfl
      (by norm_num) (by norm_num),
    spec_c7_clamped_within_bounds.2.2.2.2.1 3 ⟨12, 0.089, 0, ∅, ∅⟩ rfl
      (by norm_num) (by norm_num),
    spec_c7_clamped_within_bounds.2.2.2.2.2 3 ⟨15, 0.069, 0, ∅, ∅⟩ rfl
      (by norm_num) (by norm_num)⟩
  · norm_num [isInPool, inPoolRect, Driveway.POOL_BOUNDS, PLANTER_POSITIONS,
      PLANTER_SIZE, MOVEMENT_SPEED]
  · norm_num [isInCarArea, CAR_BOUNDS, MOVEMENT_SPEED, abs_lt]

/-- C8: in the open lot the classifier returns cleanable with type parking
on the whole band |x| <= 17, -26 <= z <= -10; and when the committed
position rounds into that band onto a still-dirty cell, the cell moves from
the dirty set to the cleaned set and the cleaned count increments by
exactly one. -/
theorem spec_c8_parking_band_classify_and_clean :
    (∀ x z : ℤ, |x| ≤ 17 → -26 ≤ z → z ≤ -10 →
      getCleanableArea x z =
        ⟨true, some SType.parking, OpenLot.SURFACE_HEIGHTS.parking⟩) ∧
    (∀ (s : OLState) (m : ℚ × ℚ), Disjoint s.dirty s.cleaned →
      jround (openLotClamp m s).2 ≤ -10 →
      (jround (openLotClamp m s).1, jround (openLotClamp m s).2, some SType.parking) ∈
        s.dirty →
      ((jround (openLotClamp m s).1, jround (openLotClamp m s).2, some SType.parking) ∉
          (openLotStep m s).dirty ∧
       (jround (openLotClamp m s).1, jround (openLotClamp m s).2, some SType.parking) ∈
          (openLotStep m s).cleaned ∧
       (openLotStep m s).cleaned.card = s.cleaned.card + 1)) := by
  have hpark : ∀ x z : ℤ, |x| ≤ 17 → -26 ≤ z → z ≤ -10 →
      getCleanableArea x z =
        ⟨true, some SType.parking, OpenLot.SURFACE_HEIGHTS.parking⟩ := by
    intro x z hx hz1 hz2
    unfold getCleanableArea
    rw [if_pos ⟨hx, hz1, hz2⟩]
  refine ⟨hpark, fun s m hdis hz hmem => ?_⟩
  have hxb := @jround_clampQ_mem OpenLot.GAME_BOUNDS.minX OpenLot.GAME_BOUNDS.maxX
    (by norm_num [OpenLot.GAME_BOUNDS]) (s.x + m.1 * MOVEMENT_SPEED)
  have hzb := @jround_clampQ_mem OpenLot.GAME_BOUNDS.minZ OpenLot.GAME_BOUNDS.maxZ
    (by norm_num [OpenLot.GAME_BOUNDS]) (s.z + m.2 * MOVEMENT_SPEED)
  norm_num [OpenLot.GAME_BOUNDS] at hxb hzb
  have harea : openLotArea m s =
      ⟨true, some SType.parking, OpenLot.SURFACE_HEIGHTS.parking⟩ := by
    unfold openLotArea
    exact hpark _ _ (abs_le.mpr ⟨hxb.1, hxb.2⟩) hzb.1 hz
  have hcell : openLotCell m s =
      (jround (openLotClamp m s).1, jround (openLotClamp m s).2, some SType.parking) := by
    unfold openLotCell
    rw [harea]
  have hclb : (openLotArea m s).cleanable = true := by rw [harea]
  have hd : (openLotStep m s).dirty =
      (cleanTransition (openLotCell m s) s.dirty s.cleaned).1 := by
    show (if (openLotArea m s).cleanable then
        cleanTransition (openLotCell m s) s.dirty s.cleaned
      else (s.dirty, s.cleaned)).1 = _
    rw [hclb]
    simp
  have hc : (openLotStep m s).cleaned =
      (cleanTransition (openLotCell m s) s.dirty s.cleaned).2 := by
    show (if (openLotArea m s).cleanable then
        cleanTransition (openLotCell m s) s.dirty s.cleaned
      else (s.dirty, s.cleaned)).2 = _
    rw [hclb]
    simp
  have hnotcl : (jround (openLotClamp m s).1, jround (openLotClamp m s).2,
      some SType.parking) ∉ s.cleaned := Finset.disjoint_left.mp hdis hmem
  refine ⟨?_, ?_, ?_⟩
  · rw [hd, hcell, (ct_clean _ _ _ hmem).1]
    exact Finset.not_mem_erase _ _
  · rw [hc, hcell, (ct_clean _ _ _ hmem).2]
    exact Finset.mem_insert_self _ _
  · rw [hc, hcell, ct_card_succ _ _ _ hmem hnotcl]

/-- Witness for C8: the classifier at (0, -12), and a frame from
(0, 0.069, -9.55) with intent (0, -1) cleaning the parking cell (0, -10). -/
theorem spec_c8_parking_band_classify_and_clean_witness :
    (getCleanableArea 0 (-12) =
      ⟨true, some SType.parking, OpenLot.SURFACE_HEIGHTS.parking⟩) ∧
    ((jround (openLotClamp (0, -1)
          ⟨0, 0.069, -9.55, {((0:ℤ), (-10:ℤ), some SType.parking)}, ∅⟩).1,
      jround (openLotClamp (0, -1)
          ⟨0, 0.069, -9.55, {((0:ℤ), (-10:ℤ), some SType.parking)}, ∅⟩).2,
      some SType.parking) ∉
        (openLotStep (0, -1)
          ⟨0, 0.069, -9.55, {((0:ℤ), (-10:ℤ), some SType.parking)}, ∅⟩).dirty ∧
     (jround (openLotClamp (0, -1)
          ⟨0, 0.069, -9.55, {((0:ℤ), (-10:ℤ), some SType.parking)}, ∅⟩).1,
      jround (openLotClamp (0, -1)
          ⟨0, 0.069, -9.55, {((0:ℤ), (-10:ℤ), some SType.parking)}, ∅⟩).2,
      some SType.parking) ∈
        (openLotStep (0, -1)
          ⟨0, 0.069, -9.55, {((0:ℤ), (-10:ℤ), some SType.parking)}, ∅⟩).cleaned ∧
     (openLotStep (0, -1)
        ⟨0, 0.069, -9.55, {((0:ℤ), (-10:ℤ), some SType.parking)}, ∅⟩).cleaned.card =
       (⟨0, 0.069, -9.55, {((0:ℤ), (-10:ℤ), some SType.parking)}, ∅⟩ :
         OLState).cleaned.card + 1) := by
  have hx1 : jround (openLotClamp (0, -1)
      ⟨0, 0.069, -9.55, {((0:ℤ), (-10:ℤ), some SType.parking)}, ∅⟩).1 = 0 := by
    norm_num [openLotClamp, clampQ, jround, OpenLot.GAME_BOUNDS, MOVEMENT_SPEED,
      max_def, min_def]
  have hz2 : jround (openLotClamp (0, -1)
      ⟨0, 0.069, -9.55, {((0:ℤ), (-10:ℤ), some SType.parking)}, ∅⟩).2 = -10 := by
    norm_num [openLotClamp, clampQ, jround, OpenLot.GAME_BOUNDS, MOVEMENT_SPEED,
      max_def, min_def]
  refine ⟨spec_c8_parking_band_classify_and_clean.1 0 (-12) (by norm_num)
      (by norm_num) (by norm_num),
    spec_c8_parking_band_classify_and_clean.2
      ⟨0, 0.069, -9.55, {((0:ℤ), (-10:ℤ), some SType.parking)}, ∅⟩ (0, -1)
      (by simp) (by rw [hz2]) ?_⟩
  rw [hx1, hz2]
  simp

/-- C9: in the open lot the y coordinate is recomputed (surface-height
snap) exactly when the rounded clamped candidate cell is classified
cleanable, and otherwise keeps the previous frame's value; the classifier
does produce non-cleanable outputs (e.g. at (0, 1)) outside the bands. -/
theorem spec_c9_height_snap_only_when_cleanable :
    (∀ (s : OLState) (m : ℚ × ℚ),
      (openLotStep m s).y =
        if (openLotArea m s).cleanable then (openLotArea m s).height + 0.069
        else s.y) ∧
    (getCleanableArea 0 1).cleanable = false :=
  ⟨fun s m => rfl, by norm_num [getCleanableArea]⟩

/-- Every in-bounds integer cell of the open lot is cleanable, with type
parking or driveway (the road band lies outside the game bounds). -/
lemma openLot_inbounds_cleanable (x z : ℤ) (hx1 : -17 ≤ x) (hx2 : x ≤ 17)
    (hz1 : -26 ≤ z) (hz2 : z ≤ -4) :
    (getCleanableArea x z).cleanable = true ∧
    ((getCleanableArea x z).type = some SType.parking ∨
     (getCleanableArea x z).type = some SType.driveway) := by
  have hx : |x| ≤ 17 := abs_le.mpr ⟨hx1, hx2⟩
  unfold getCleanableArea
  by_cases hp : z ≤ -10
  · rw [if_pos ⟨hx, hz1, hp⟩]
    exact ⟨rfl, Or.inl rfl⟩
  · push_neg at hp
    rw [if_neg (fun h => absurd h.2.2 (by omega)),
      if_pos ⟨by omega, by omega, hx⟩]
    exact ⟨rfl, Or.inr rfl⟩

/-- C10: every clamped coordinate pair of the open lot rounds to a cell the
classifier reports cleanable with type parking or driveway, so the
non-cleanable branch is unreachable for committed positions; and no cell of
surface type road ever appears in the dirty set along any run. -/
theorem spec_c10_inbounds_always_cleanable_no_road :
    (∀ x z : ℚ,
      (getCleanableArea
        (jround (clampQ (OpenLot.GAME_BOUNDS.minX : ℚ) (OpenLot.GAME_BOUNDS.maxX : ℚ) x))
        (jround (clampQ (OpenLot.GAME_BOUNDS.minZ : ℚ) (OpenLot.GAME_BOUNDS.maxZ : ℚ) z))).cleanable
          = true ∧
      ((getCleanableArea
        (jround (clampQ (OpenLot.GAME_BOUNDS.minX : ℚ) (OpenLot.GAME_BOUNDS.maxX : ℚ) x))
        (jround (clampQ (OpenLot.GAME_BOUNDS.minZ : ℚ) (OpenLot.GAME_BOUNDS.maxZ : ℚ) z))).type
          = some SType.parking ∨
       (getCleanableArea
        (jround (clampQ (OpenLot.GAME_BOUNDS.minX : ℚ) (OpenLot.GAME_BOUNDS.maxX : ℚ) x))
        (jround (clampQ (OpenLot.GAME_BOUNDS.minZ : ℚ) (OpenLot.GAME_BOUNDS.maxZ : ℚ) z))).type
          = some SType.driveway)) ∧
    (∀ l : List (ℚ × ℚ),
      (openLotRun l).dirty.filter (fun c => c.2.2 = some SType.road) = ∅) := by
  constructor
  · intro x z
    have hxb := @jround_clampQ_mem OpenLot.GAME_BOUNDS.minX OpenLot.GAME_BOUNDS.maxX
      (by norm_num [OpenLot.GAME_BOUNDS]) x
    have hzb := @jround_clampQ_mem OpenLot.GAME_BOUNDS.minZ OpenLot.GAME_BOUNDS.maxZ
      (by norm_num [OpenLot.GAME_BOUNDS]) z
    norm_num [OpenLot.GAME_BOUNDS] at hxb hzb
    exact openLot_inbounds_cleanable _ _ hxb.1 hxb.2 hzb.1 hzb.2
  · intro l
    have hsub : (openLotRun l).dirty ⊆ openLotInitDirty :=
      openLotRunFrom_dirty_subset openLotInit l
    rw [Finset.filter_eq_empty_iff]
    intro c hc
    have hcin := hsub hc
    unfold openLotInitDirty at hcin
    obtain ⟨p, hp, rfl⟩ := Finset.mem_image.mp hcin
    rw [Finset.mem_filter, Finset.mem_product, Finset.mem_Icc, Finset.mem_Icc] at hp
    norm_num [OpenLot.GAME_BOUNDS] at hp
    rcases (openLot_inbounds_cleanable p.1 p.2 hp.1.1.1 hp.1.1.2 hp.1.2.1 hp.1.2.2).2
      with h | h <;> simp [h]
